import Mathlib

set_option autoImplicit false

/-!
Formalisation of the serverMonitor backup/monitoring core.

Shallow embedding of the code in `src/services/backupService.js`,
`src/services/scheduler.js`, `src/monitors/dockerMonitor.js` and the
network monitor.  JavaScript strings are Lean `String`s, epoch-millisecond
instants are `Int`, exact numeric computation is `ℚ` (the JS code computes
in IEEE doubles; every computation the claims mention is exact, so `ℚ` is
faithful there), and side effects (filesystem / subprocess) are made
explicit: fallible operations return `Except`, external-world answers are
supplied by an `Env` record, and each operation also returns the ordered
trace of filesystem/process actions it performed.
-/

/-- Database descriptor of an application, from `config/applications.json`
(fields read by the code: `type`, `container`, `database`, `username`,
`password`, optional `backupSchedule`, optional `retentionDays`). -/
structure DbConfig where
  type : String
  container : String
  database : String
  username : String
  password : String
  backupSchedule : Option String
  retentionDays : Option Int
  deriving Repr, DecidableEq

/-- Application descriptor: `name`, list of container-name fragments
(`containers`), optional database descriptor. -/
structure Application where
  name : String
  containers : List String
  database : Option DbConfig
  deriving Repr, DecidableEq

/-- Process-wide configuration (src/config/config.js): backup root
directory, default cron schedule, default retention days, and the
application roster. -/
structure Config where
  backupDir : String
  defaultSchedule : String
  defaultRetentionDays : Int
  applications : List Application
  deriving Repr, DecidableEq

/-- JavaScript `a || b` on an optional string: `undefined` and the empty
string are falsy. -/
def jsOrStr (v : Option String) (d : String) : String :=
  match v with
  | some s => if s = "" then d else s
  | none => d

/-- JavaScript `a || b` on an optional number: `undefined` and `0` are
falsy. -/
def jsOrInt (v : Option Int) (d : Int) : Int :=
  match v with
  | some n => if n = 0 then d else n
  | none => d

/-- JavaScript truthiness of an optional string (used for
`app.database.backupSchedule` guards). -/
def jsTruthyStr (v : Option String) : Bool :=
  match v with
  | some s => s ≠ ""
  | none => false

/-- JavaScript `s.includes(pat)`: `pat` occurs as a contiguous substring
of `s`. -/
def jsIncludes (s pat : String) : Bool :=
  decide (pat.data <:+: s.data)

/-- JavaScript `name.replace('/', '')`: removes the first occurrence of
`'/'` (string-pattern `replace` replaces only the first match). -/
def removeFirstSlash : List Char → List Char
  | [] => []
  | c :: cs => if c = '/' then cs else c :: removeFirstSlash cs

/-- Clean a raw container name the way `findApplicationForContainer` does:
`containerName.replace('/', '')`. -/
def cleanContainerName (s : String) : String :=
  ⟨removeFirstSlash s.data⟩

/-- Matching test of one application against a cleaned container name,
mirroring the body of the roster loop in `findApplicationForContainer`:
some declared fragment `c` satisfies
`cleanName.includes(c) || c.includes(cleanName)`, or the application has a
database and `cleanName.includes(app.database.container)`. -/
def appMatchesContainer (cleanName : String) (app : Application) : Bool :=
  app.containers.any (fun c => jsIncludes cleanName c || jsIncludes c cleanName) ||
    (match app.database with
     | some db => jsIncludes cleanName db.container
     | none => false)

/-- Embedding of `dockerMonitor.findApplicationForContainer`: clean the
raw name, scan the roster in declaration order, return the first matching
application's name, `none` when no application matches (JS `null`). -/
def findApplicationForContainer (apps : List Application) (containerName : String) :
    Option String :=
  let cleanName := cleanContainerName containerName
  (apps.find? (appMatchesContainer cleanName)).map Application.name

/-- Resolved application of a container as reported by `getContainers`:
`this.findApplicationForContainer(container.Names[0]) || 'unknown'`. -/
def resolveApplication (apps : List Application) (containerName : String) : String :=
  (findApplicationForContainer apps containerName).getD "unknown"

/-- CPU percentage computation of `getContainers`
(src/monitors/dockerMonitor.js lines 26-33): deltas of the cumulative
counters, guarded division, scaled by online CPUs and 100. -/
def cpuPercent (curCpuTotal preCpuTotal curSystem preSystem onlineCpus : ℚ) : ℚ :=
  let cpuDelta := curCpuTotal - preCpuTotal
  let systemDelta := curSystem - preSystem
  if systemDelta > 0 then (cpuDelta / systemDelta) * onlineCpus * 100 else 0

/-- Memory percentage computation of `getContainers`
(src/monitors/dockerMonitor.js lines 36-40). -/
def memoryPercent (usage limit : ℚ) : ℚ :=
  if limit > 0 then (usage / limit) * 100 else 0

/-- Entry of the network monitor's previous-sample cache
(`this.previousStats[iface]`): last byte counters and sample instant
(epoch ms). -/
structure PrevStat where
  rx_bytes : Int
  tx_bytes : Int
  timestamp : Int
  deriving Repr, DecidableEq

/-- One raw interface sample as delivered by `si.networkStats()` (the
fields the rate computation reads). -/
structure IfaceSample where
  iface : String
  rx_bytes : Int
  tx_bytes : Int
  deriving Repr, DecidableEq

/-- Derived per-interface rates reported by `getNetworkStats` (the
`rxSpeed`/`txSpeed` fields, after `Math.round`). -/
structure IfaceResult where
  iface : String
  rxSpeed : Int
  txSpeed : Int
  deriving Repr, DecidableEq

/-- Lookup in the previous-sample cache, modelled as an association
list keyed by interface name. -/
def cacheLookup (cache : List (String × PrevStat)) (k : String) : Option PrevStat :=
  (cache.find? (fun e => e.1 == k)).map Prod.snd

/-- JavaScript object property assignment `this.previousStats[k] = v`:
overwrite the existing entry or append a new one. -/
def cacheSet (cache : List (String × PrevStat)) (k : String) (v : PrevStat) :
    List (String × PrevStat) :=
  match cache with
  | [] => [(k, v)]
  | e :: rest => if e.1 == k then (k, v) :: rest else e :: cacheSet rest k v

/-- JavaScript `Math.round`: `Math.round x = ⌊x + 1/2⌋` (round half toward
positive infinity), which is Mathlib's `round`. -/
def jsMathRound (x : ℚ) : Int := round x

/-- Per-interface body of the `networkStats.map` callback in
`getNetworkStats`: if the cache holds a previous sample for the interface,
rates are byte deltas over elapsed seconds, otherwise 0; then the cache is
overwritten with the current counters and `now`.  Returns the reported
result together with the updated cache. -/
def processIface (cache : List (String × PrevStat)) (now : Int) (s : IfaceSample) :
    IfaceResult × List (String × PrevStat) :=
  let speeds : ℚ × ℚ :=
    match cacheLookup cache s.iface with
    | some prev =>
        let timeDiff : ℚ := ((now : ℚ) - (prev.timestamp : ℚ)) / 1000
        (((s.rx_bytes : ℚ) - (prev.rx_bytes : ℚ)) / timeDiff,
         ((s.tx_bytes : ℚ) - (prev.tx_bytes : ℚ)) / timeDiff)
    | none => (0, 0)
  let cache' := cacheSet cache s.iface ⟨s.rx_bytes, s.tx_bytes, now⟩
  (⟨s.iface, jsMathRound speeds.1, jsMathRound speeds.2⟩, cache')

/-- Rate-derivation core of `getNetworkStats`: map `processIface` over the
poll's samples, threading the previous-sample cache (a later sample of the
same poll sees cache writes of earlier ones, as in the JS closure). -/
def getNetworkStats (cache : List (String × PrevStat)) (now : Int) :
    List IfaceSample → List IfaceResult × List (String × PrevStat)
  | [] => ([], cache)
  | s :: rest =>
      let (r, cache') := processIface cache now s
      let (rs, cache'') := getNetworkStats cache' now rest
      (r :: rs, cache'')

/-- Error kinds thrown by the backup service (modelling the `Error`
messages thrown in src/services/backupService.js, plus the raw `TypeError`
that `restoreBackup` raises when it reads `.type` off an absent
`app.database`). -/
inductive BackupError where
  | appNotFound (appName : String)
  | noDatabaseConfigured (appName : String)
  | unsupportedDatabaseType (t : String)
  | emptyBackupFile
  | processFailed (cmd : String)
  | fileNotFound (path : String)
  | typeErrorReadTypeOfUndefined
  deriving Repr, DecidableEq

/-- Message carried by each thrown error (`error.message`, as stored in
the failure entries of `createAllBackups`). -/
def errorMessage : BackupError → String
  | .appNotFound a => "Application " ++ a ++ " not found in configuration"
  | .noDatabaseConfigured a => "No database configured for application " ++ a
  | .unsupportedDatabaseType t => "Unsupported database type: " ++ t
  | .emptyBackupFile => "Backup file is empty"
  | .processFailed c => "Command failed: " ++ c
  | .fileNotFound p => "ENOENT: no such file or directory, access " ++ p
  | .typeErrorReadTypeOfUndefined =>
      "Cannot read properties of undefined (reading 'type')"

/-- Observable side effects of the backup service, in execution order. -/
inductive FsAction where
  | mkdir (path : String)
  | execCmd (cmd : String)
  | statFile (path : String)
  | accessFile (path : String)
  | unlink (path : String)
  deriving Repr, DecidableEq

/-- One entry of the `listBackups` result: application, filename, full
path, byte size, and creation instant (`stats.birthtime`, epoch ms). -/
structure BackupEntry where
  application : String
  filename : String
  path : String
  size : Int
  created : Int
  deriving Repr, DecidableEq

/-- External world supplying the answers of the boundary collaborators:
whether a subprocess exits successfully, the byte size `fs.stat` reports,
whether `fs.access` finds a file, the `listBackups(appName)` listing, and
the current instant. -/
structure Env where
  execOk : String → Bool
  fileSize : String → Int
  fileExists : String → Bool
  listing : String → List BackupEntry
  now : Int

/-- `path.join(a, b)` on POSIX for plain segments. -/
def joinPath (a b : String) : String := a ++ "/" ++ b

/-- Embedding of `getPostgreSQLBackupCommand` (the source destructures
`app.database`; we pass that descriptor directly). -/
def getPostgreSQLBackupCommand (db : DbConfig) (backupFile : String) : String :=
  "docker exec " ++ db.container ++ " pg_dump -U " ++ db.username ++ " " ++
    db.database ++ " | gzip > " ++ backupFile

/-- Embedding of `getMySQLBackupCommand`. -/
def getMySQLBackupCommand (db : DbConfig) (backupFile : String) : String :=
  "docker exec " ++ db.container ++ " mysqldump -u " ++ db.username ++ " -p" ++
    db.password ++ " " ++ db.database ++ " | gzip > " ++ backupFile

/-- Embedding of `getMongoDBBackupCommand`. -/
def getMongoDBBackupCommand (db : DbConfig) (backupFile : String) : String :=
  "docker exec " ++ db.container ++ " mongodump --db " ++ db.database ++
    " --archive | gzip > " ++ backupFile

/-- JavaScript `s.toLowerCase()` for ASCII strings, modelled on the
character list (`Char.toLower` is the same per-character mapping; Lean
core's `String.toLower` recurses on byte positions and does not reduce
definitionally, so we map over `s.data` directly). -/
def jsToLowerCase (s : String) : String := ⟨s.data.map Char.toLower⟩

/-- Cutoff instant of `cleanupOldBackups`: `new Date()` shifted back by
`retentionDays` days (`cutoffDate.setDate(cutoffDate.getDate() - retentionDays)`),
as epoch milliseconds. -/
def cleanupCutoff (now retentionDays : Int) : Int :=
  now - retentionDays * 86400000

/-- Artifacts `cleanupOldBackups` deletes: exactly those whose creation
instant satisfies `backup.created < cutoffDate`. -/
def cleanupDeleted (now retentionDays : Int) (backups : List BackupEntry) :
    List BackupEntry :=
  backups.filter (fun b => b.created < cleanupCutoff now retentionDays)

/-- Embedding of `cleanupOldBackups(appName, retentionDays)` run over the
given `listBackups` result: returns `deletedCount` together with the
`fs.unlink` actions performed, in order. -/
def cleanupOldBackups (now retentionDays : Int) (backups : List BackupEntry) :
    Nat × List FsAction :=
  ((cleanupDeleted now retentionDays backups).length,
   (cleanupDeleted now retentionDays backups).map (fun b => FsAction.unlink b.path))

/-- Destination file and backup command selected by the
`switch (app.database.type.toLowerCase())` in `createBackup`; the
unsupported default case throws. -/
def backupPlan (db : DbConfig) (appBackupDir timestamp : String) :
    Except BackupError (String × String) :=
  if jsToLowerCase db.type = "postgresql" then
    let f := joinPath appBackupDir ("backup-" ++ timestamp ++ ".sql.gz")
    .ok (f, getPostgreSQLBackupCommand db f)
  else if jsToLowerCase db.type = "mysql" then
    let f := joinPath appBackupDir ("backup-" ++ timestamp ++ ".sql.gz")
    .ok (f, getMySQLBackupCommand db f)
  else if jsToLowerCase db.type = "mongodb" then
    let f := joinPath appBackupDir ("backup-" ++ timestamp ++ ".archive.gz")
    .ok (f, getMongoDBBackupCommand db f)
  else
    .error (.unsupportedDatabaseType db.type)

/-- Success record of `createBackup` (`{success: true, application, file,
size, timestamp}`). -/
structure SuccessRecord where
  application : String
  file : String
  size : Int
  deriving Repr, DecidableEq

/-- Embedding of `createBackup(appName)` with the environment answering
the external calls and `timestamp` the formatted start instant.  Follows
the source order exactly: roster lookup, no-database check, `fs.mkdir` of
the per-application directory, engine switch, command execution,
`fs.stat` verification with the empty-file check, then retention cleanup;
returns the thrown error or the success record, paired with the action
trace. -/
def createBackup (cfg : Config) (env : Env) (appName timestamp : String) :
    Except BackupError SuccessRecord × List FsAction :=
  match cfg.applications.find? (fun a => a.name == appName) with
  | none => (.error (.appNotFound appName), [])
  | some app =>
    match app.database with
    | none => (.error (.noDatabaseConfigured appName), [])
    | some db =>
      let appBackupDir := joinPath cfg.backupDir appName
      match backupPlan db appBackupDir timestamp with
      | .error e => (.error e, [.mkdir appBackupDir])
      | .ok (backupFile, backupCommand) =>
        if env.execOk backupCommand = false then
          (.error (.processFailed backupCommand),
           [.mkdir appBackupDir, .execCmd backupCommand])
        else
          let size := env.fileSize backupFile
          if size = 0 then
            (.error .emptyBackupFile,
             [.mkdir appBackupDir, .execCmd backupCommand, .statFile backupFile])
          else
            let retention := jsOrInt db.retentionDays cfg.defaultRetentionDays
            let cleanup := cleanupOldBackups env.now retention (env.listing appName)
            (.ok ⟨appName, backupFile, size⟩,
             [.mkdir appBackupDir, .execCmd backupCommand, .statFile backupFile] ++
               cleanup.2)

/-- One entry of the `createAllBackups` result list: the success record,
or `{success: false, application, error}`. -/
inductive AllResult where
  | ok (r : SuccessRecord)
  | failed (application : String) (error : String)
  deriving Repr, DecidableEq

/-- Application name reported by a `createAllBackups` entry. -/
def AllResult.application : AllResult → String
  | .ok r => r.application
  | .failed a _ => a

/-- Success flag of a `createAllBackups` entry. -/
def AllResult.success : AllResult → Bool
  | .ok _ => true
  | .failed _ _ => false

/-- Loop body of `createAllBackups` for one attempted application: the
`try { results.push(result) } catch { results.push({success: false, ...}) }`
around `createBackup(app.name)`. -/
def backupAttempt (cfg : Config) (env : Env) (timestamp : String)
    (app : Application) : AllResult :=
  match (createBackup cfg env app.name timestamp).1 with
  | .ok r => .ok r
  | .error e => .failed app.name (errorMessage e)

/-- Embedding of `createAllBackups()`: loop over the roster, skip
applications without a database, attempt `createBackup` for the rest and
record success or the caught error's message. -/
def createAllBackups (cfg : Config) (env : Env) (timestamp : String) :
    List AllResult :=
  (cfg.applications.filter (fun app => app.database.isSome)).map
    (backupAttempt cfg env timestamp)

/-- Restore command built inline in `restoreBackup` for postgresql. -/
def getPostgreSQLRestoreCommand (db : DbConfig) (backupPath : String) : String :=
  "gunzip < " ++ backupPath ++ " | docker exec -i " ++ db.container ++
    " psql -U " ++ db.username ++ " " ++ db.database

/-- Restore command built inline in `restoreBackup` for mysql. -/
def getMySQLRestoreCommand (db : DbConfig) (backupPath : String) : String :=
  "gunzip < " ++ backupPath ++ " | docker exec -i " ++ db.container ++
    " mysql -u " ++ db.username ++ " -p" ++ db.password ++ " " ++ db.database

/-- Restore command built inline in `restoreBackup` for mongodb. -/
def getMongoDBRestoreCommand (db : DbConfig) (backupPath : String) : String :=
  "gunzip < " ++ backupPath ++ " | docker exec -i " ++ db.container ++
    " mongorestore --archive --db " ++ db.database

/-- Restore command selected by the `switch (app.database.type.toLowerCase())`
in `restoreBackup`; reading `.type` when the application has no database
descriptor raises a raw `TypeError` (there is no explicit no-database
check, unlike `createBackup`). -/
def restorePlan (database : Option DbConfig) (backupPath : String) :
    Except BackupError String :=
  match database with
  | none => .error .typeErrorReadTypeOfUndefined
  | some db =>
    if jsToLowerCase db.type = "postgresql" then
      .ok (getPostgreSQLRestoreCommand db backupPath)
    else if jsToLowerCase db.type = "mysql" then
      .ok (getMySQLRestoreCommand db backupPath)
    else if jsToLowerCase db.type = "mongodb" then
      .ok (getMongoDBRestoreCommand db backupPath)
    else
      .error (.unsupportedDatabaseType db.type)

/-- Success record of `restoreBackup` (`{success: true, application,
backup, timestamp}`). -/
structure RestoreRecord where
  application : String
  backup : String
  deriving Repr, DecidableEq

/-- Embedding of `restoreBackup(appName, filename)`: roster lookup,
`fs.access` existence check of the artifact, engine switch (which reads
`app.database.type` without a no-database guard), command execution. -/
def restoreBackup (cfg : Config) (env : Env) (appName filename : String) :
    Except BackupError RestoreRecord × List FsAction :=
  match cfg.applications.find? (fun a => a.name == appName) with
  | none => (.error (.appNotFound appName), [])
  | some app =>
    let backupPath := joinPath (joinPath cfg.backupDir appName) filename
    if env.fileExists backupPath = false then
      (.error (.fileNotFound backupPath), [.accessFile backupPath])
    else
      match restorePlan app.database backupPath with
      | .error e => (.error e, [.accessFile backupPath])
      | .ok restoreCommand =>
        if env.execOk restoreCommand = false then
          (.error (.processFailed restoreCommand),
           [.accessFile backupPath, .execCmd restoreCommand])
        else
          (.ok ⟨appName, filename⟩,
           [.accessFile backupPath, .execCmd restoreCommand])

/-- One entry of the scheduler's job table (`this.jobs`; the live trigger
handle is not modelled). -/
structure Job where
  application : String
  jobType : String
  schedule : String
  deriving Repr, DecidableEq

/-- Embedding of `scheduler.scheduleBackup(app)`: compute the schedule
with the default-cadence fallback, reject it if `cron.validate` fails
(leaving the job table unchanged), otherwise append the job.
`cron.validate` is passed in as `validate`. -/
def scheduleBackup (cfg : Config) (validate : String → Bool) (jobs : List Job)
    (app : Application) : List Job :=
  let schedule := jsOrStr (app.database.bind DbConfig.backupSchedule) cfg.defaultSchedule
  if validate schedule = false then jobs
  else jobs ++ [⟨app.name, "backup", schedule⟩]

/-- Step function of the roster loop in `scheduler.init()` (the
`config.applications.forEach` body with its
`app.database && app.database.backupSchedule` guard). -/
def schedulerInitStep (cfg : Config) (validate : String → Bool)
    (jobs : List Job) (app : Application) : List Job :=
  match app.database with
  | some db =>
    if jsTruthyStr db.backupSchedule then scheduleBackup cfg validate jobs app
    else jobs
  | none => jobs

/-- Embedding of `scheduler.init()`: fold over the roster, calling
`scheduleBackup` only for applications satisfying
`app.database && app.database.backupSchedule`. -/
def schedulerInit (cfg : Config) (validate : String → Bool) : List Job :=
  cfg.applications.foldl (schedulerInitStep cfg validate) []

/-!
Concrete fixtures (a small roster in the shape of `config/applications.json`)
used by witnesses and counterexamples below.
-/

/-- Fixture: a postgresql database descriptor. -/
def pgDb : DbConfig :=
  ⟨"postgresql", "myapp-db", "appdb", "admin", "secret", some "0 2 * * *", some 7⟩

/-- Fixture: application with a postgresql database. -/
def appA : Application := ⟨"appA", ["appa-web"], some pgDb⟩

/-- Fixture: monitoring-only application (no database descriptor). -/
def appPlain : Application := ⟨"plain", ["plain-web"], none⟩

/-- Fixture: database descriptor with an unsupported engine kind. -/
def redisDb : DbConfig := ⟨"redis", "cache", "d0", "u", "p", none, none⟩

/-- Fixture: application with an unsupported database engine. -/
def appB : Application := ⟨"appB", ["appb"], some redisDb⟩

/-- Fixture roster configuration. -/
def cfg1 : Config := ⟨"./backups", "0 2 * * *", 7, [appA, appPlain, appB]⟩

/-- Fixture environment: every command succeeds, every file stats to 100
bytes and exists, no stored artifacts. -/
def envAllOk : Env := ⟨fun _ => true, fun _ => 100, fun _ => true, fun _ => [], 0⟩

/-- Fixture environment: every command succeeds but every artifact stats
to zero bytes. -/
def envEmptyFile : Env := ⟨fun _ => true, fun _ => 0, fun _ => true, fun _ => [], 0⟩

/-- C7: for every container stats sample, `cpuPercent` equals the CPU
counter delta divided by the system-usage delta, times the online CPU
count, times 100, whenever the system delta is positive — on the claim's
inputs 200/100/1200/1000 with 4 CPUs it is exactly 200 — and whenever the
system delta is zero or negative the result is exactly 0 (hence never
negative, and no division is performed, so never NaN); `memoryPercent` is
usage/limit × 100 when the limit is positive, else 0. -/
theorem cpuPercent_memoryPercent_spec :
    (∀ curC preC curS preS n : ℚ, curS - preS > 0 →
        cpuPercent curC preC curS preS n = (curC - preC) / (curS - preS) * n * 100) ∧
    (∀ curC preC curS preS n : ℚ, curS - preS ≤ 0 →
        cpuPercent curC preC curS preS n = 0 ∧
          ¬ cpuPercent curC preC curS preS n < 0) ∧
    cpuPercent 200 100 1200 1000 4 = 200 ∧
    (∀ u l : ℚ, 0 < l → memoryPercent u l = u / l * 100) ∧
    (∀ u l : ℚ, l ≤ 0 → memoryPercent u l = 0) := by
  refine ⟨?_, ?_, ?_, ?_, ?_⟩
  · intro curC preC curS preS n h
    simp only [cpuPercent, if_pos h]
  · intro curC preC curS preS n h
    have h0 : cpuPercent curC preC curS preS n = 0 := by
      simp only [cpuPercent, if_neg (not_lt.mpr h)]
    exact ⟨h0, by simp [h0]⟩
  · norm_num [cpuPercent]
  · intro u l h
    simp only [memoryPercent, if_pos h]
  · intro u l h
    simp only [memoryPercent, if_neg (not_lt.mpr h)]

/-- Witness for C7: the theorem applied at the claim's concrete inputs
and at a zero system delta. -/
theorem cpuPercent_memoryPercent_spec_witness :
    cpuPercent 300 100 1100 1000 2 = 400 ∧ cpuPercent 5 1 7 7 4 = 0 ∧
    memoryPercent 50 200 = 25 ∧ memoryPercent 3 0 = 0 := by
  have h := cpuPercent_memoryPercent_spec
  refine ⟨?_, (h.2.1 5 1 7 7 4 (by norm_num)).1, ?_, h.2.2.2.2 3 0 le_rfl⟩
  · rw [h.1 300 100 1100 1000 2 (by norm_num)]; norm_num
  · rw [h.2.2.2.1 50 200 (by norm_num)]; norm_num

/-- C1: whenever the roster lookup and engine switch of `createBackup`
succeed and the backup subprocess completes with exit code zero
(`env.execOk` true, so `execAsync` does not throw), an artifact statting
to zero bytes makes `createBackup` fail with the EmptyArtifact error
("Backup file is empty"); a nonzero artifact size is the authoritative
success signal. -/
theorem createBackup_empty_artifact_fails (cfg : Config) (env : Env)
    (appName timestamp : String) (app : Application) (db : DbConfig)
    (file cmd : String)
    (hfind : cfg.applications.find? (fun a => a.name == appName) = some app)
    (hdb : app.database = some db)
    (hplan : backupPlan db (joinPath cfg.backupDir appName) timestamp = .ok (file, cmd))
    (hexec : env.execOk cmd = true) :
    (env.fileSize file = 0 →
       (createBackup cfg env appName timestamp).1 = .error .emptyBackupFile) ∧
    (env.fileSize file ≠ 0 →
       (createBackup cfg env appName timestamp).1 =
         .ok ⟨appName, file, env.fileSize file⟩) := by
  constructor
  · intro hs
    simp [createBackup, hfind, hdb, hplan, hexec, hs]
  · intro hs
    simp [createBackup, hfind, hdb, hplan, hexec, hs]

/-- Witness for C1: on the fixture roster, a zero-byte artifact fails the
backup even though the subprocess succeeded, and a 100-byte artifact
succeeds. -/
theorem createBackup_empty_artifact_fails_witness :
    (createBackup cfg1 envEmptyFile "appA" "T").1 = .error .emptyBackupFile ∧
    (createBackup cfg1 envAllOk "appA" "T").1 =
      .ok ⟨"appA", "./backups/appA/backup-T.sql.gz", 100⟩ := by
  constructor
  · exact (createBackup_empty_artifact_fails cfg1 envEmptyFile "appA" "T" appA pgDb
      "./backups/appA/backup-T.sql.gz"
      "docker exec myapp-db pg_dump -U admin appdb | gzip > ./backups/appA/backup-T.sql.gz"
      rfl rfl rfl rfl).1 rfl
  · exact (createBackup_empty_artifact_fails cfg1 envAllOk "appA" "T" appA pgDb
      "./backups/appA/backup-T.sql.gz"
      "docker exec myapp-db pg_dump -U admin appdb | gzip > ./backups/appA/backup-T.sql.gz"
      rfl rfl rfl rfl).2 (by decide)

/-- C9: for an application present in the roster with no database
descriptor, `createBackup` fails with the NoDatabaseConfigured error and
its side-effect trace is empty — in particular no directory is created
and no artifact is written. -/
theorem createBackup_no_database (cfg : Config) (env : Env)
    (appName timestamp : String) (app : Application)
    (hfind : cfg.applications.find? (fun a => a.name == appName) = some app)
    (hdb : app.database = none) :
    createBackup cfg env appName timestamp =
      (.error (.noDatabaseConfigured appName), []) := by
  simp [createBackup, hfind, hdb]

/-- Witness for C9: the fixture application "plain" has no database;
`createBackup` rejects it with an empty action trace. -/
theorem createBackup_no_database_witness :
    createBackup cfg1 envAllOk "plain" "T" =
      (.error (.noDatabaseConfigured "plain"), []) :=
  createBackup_no_database cfg1 envAllOk "plain" "T" appPlain rfl rfl

/-- Fixture artifact 1 day old (relative to a poll at instant 0). -/
def entry1d : BackupEntry := ⟨"appA", "b1", "p1", 10, -86400000⟩

/-- Fixture artifact 8 days old. -/
def entry8d : BackupEntry := ⟨"appA", "b8", "p8", 10, -8 * 86400000⟩

/-- Fixture artifact 30 days old. -/
def entry30d : BackupEntry := ⟨"appA", "b30", "p30", 10, -30 * 86400000⟩

/-- C2: `cleanupOldBackups` deletes exactly the artifacts created
strictly before `now − retentionDays` (in days of 86400000 ms) and
returns their count; on the claim's example (retentionDays 7, artifacts
from 1, 8 and 30 days ago) exactly the 8- and 30-day artifacts are
unlinked and the count is 2; a repeated run over the surviving artifacts
(those not strictly older than the cutoff) deletes zero. -/
theorem cleanupOldBackups_spec (now r : Int) (backups : List BackupEntry) :
    (∀ b, b ∈ cleanupDeleted now r backups ↔
        b ∈ backups ∧ b.created < now - r * 86400000) ∧
    (cleanupOldBackups now r backups).1 = (cleanupDeleted now r backups).length ∧
    (cleanupOldBackups now r
        (backups.filter (fun b => ! decide (b.created < cleanupCutoff now r)))) =
      (0, []) ∧
    cleanupOldBackups 0 7 [entry1d, entry8d, entry30d] =
      (2, [.unlink "p8", .unlink "p30"]) ∧
    cleanupOldBackups 0 7 [entry1d] = (0, []) := by
  refine ⟨?_, rfl, ?_, by decide, by decide⟩
  · intro b
    simp [cleanupDeleted, cleanupCutoff, List.mem_filter]
  · simp [cleanupOldBackups, cleanupDeleted, List.filter_filter]

/-- Overwriting a key in the previous-sample cache makes a subsequent
lookup of that key return the new entry. -/
theorem cacheLookup_cacheSet_self (cache : List (String × PrevStat)) (k : String)
    (v : PrevStat) : cacheLookup (cacheSet cache k v) k = some v := by
  induction cache with
  | nil => simp [cacheSet, cacheLookup]
  | cons e rest ih =>
    by_cases h : e.1 == k
    · simp [cacheSet, h, cacheLookup]
    · simpa [cacheSet, h, cacheLookup] using ih

/-- C8: the first-ever observation of an interface reports rx and tx
rates 0; an observation with a cached previous sample reports
rate = byte delta / elapsed seconds (elapsed = (now − cached instant) /
1000 ms), rounded as `Math.round`; in both cases the cache entry for the
interface is overwritten with the current counters and instant; on the
claim's example (rx delta 1000 bytes over 2 seconds) the reported rxSpeed
is 500. -/
theorem getNetworkStats_rate_spec (cache : List (String × PrevStat)) (now : Int)
    (s : IfaceSample) :
    (cacheLookup cache s.iface = none →
       (processIface cache now s).1 = ⟨s.iface, 0, 0⟩) ∧
    (∀ prev, cacheLookup cache s.iface = some prev →
       (processIface cache now s).1 =
         ⟨s.iface,
          jsMathRound (((s.rx_bytes : ℚ) - (prev.rx_bytes : ℚ)) /
            (((now : ℚ) - (prev.timestamp : ℚ)) / 1000)),
          jsMathRound (((s.tx_bytes : ℚ) - (prev.tx_bytes : ℚ)) /
            (((now : ℚ) - (prev.timestamp : ℚ)) / 1000))⟩) ∧
    cacheLookup (processIface cache now s).2 s.iface =
      some ⟨s.rx_bytes, s.tx_bytes, now⟩ ∧
    (processIface [("eth0", ⟨0, 0, 0⟩)] 2000 ⟨"eth0", 1000, 0⟩).1.rxSpeed = 500 := by
  refine ⟨?_, ?_, cacheLookup_cacheSet_self cache s.iface _, ?_⟩
  · intro h
    simp [processIface, h, jsMathRound]
  · intro prev h
    simp [processIface, h]
  · norm_num [processIface, cacheLookup, jsMathRound]

/-- Witness for C8: a fresh interface reports rate 0 and seeds the cache;
the seeded cache then yields the delta-over-elapsed rate. -/
theorem getNetworkStats_rate_spec_witness :
    (processIface [] 0 ⟨"eth0", 0, 0⟩).1 = ⟨"eth0", 0, 0⟩ ∧
    (processIface [("eth0", ⟨0, 0, 0⟩)] 2000 ⟨"eth0", 1000, 500⟩).1 =
      ⟨"eth0", 500, 250⟩ := by
  constructor
  · exact (getNetworkStats_rate_spec [] 0 ⟨"eth0", 0, 0⟩).1 rfl
  · rw [(getNetworkStats_rate_spec [("eth0", ⟨0, 0, 0⟩)] 2000
      ⟨"eth0", 1000, 500⟩).2.1 ⟨0, 0, 0⟩ rfl]
    norm_num [jsMathRound]

/-- Have the ok-result of `createBackup` always report the requested
application name (needed to read an attempted application off a
`createAllBackups` entry). -/
theorem createBackup_ok_application (cfg : Config) (env : Env)
    (appName ts : String) (r : SuccessRecord)
    (h : (createBackup cfg env appName ts).1 = .ok r) : r.application = appName := by
  rcases hfind : cfg.applications.find? (fun a => a.name == appName) with _ | app
  · simp [createBackup, hfind] at h
  · rcases hdb : app.database with _ | db
    · simp [createBackup, hfind, hdb] at h
    · rcases hplan : backupPlan db (joinPath cfg.backupDir appName) ts with e | fc
      · simp [createBackup, hfind, hdb, hplan] at h
      · obtain ⟨file, cmd⟩ := fc
        cases hexec : env.execOk cmd
        · simp [createBackup, hfind, hdb, hplan, hexec] at h
        · by_cases hs : env.fileSize file = 0
          · simp [createBackup, hfind, hdb, hplan, hexec, hs] at h
          · simp [createBackup, hfind, hdb, hplan, hexec, hs] at h
            rw [← h]

/-- C10: for a rostered application whose descriptor lacks a database
field, `restoreBackup` fails even when the named artifact exists: the
`fs.access` check passes, then reading `.type` off the absent descriptor
raises a raw TypeError — not the structured NoDatabaseConfigured error
`createBackup` uses — and no restore command is ever executed. -/
theorem restoreBackup_no_database_typeError (cfg : Config) (env : Env)
    (appName filename : String) (app : Application)
    (hfind : cfg.applications.find? (fun a => a.name == appName) = some app)
    (hdb : app.database = none)
    (hex : env.fileExists (joinPath (joinPath cfg.backupDir appName) filename) = true) :
    (restoreBackup cfg env appName filename).1 =
      .error .typeErrorReadTypeOfUndefined ∧
    (restoreBackup cfg env appName filename).1 ≠
      .error (.noDatabaseConfigured appName) ∧
    (∀ c, FsAction.execCmd c ∉ (restoreBackup cfg env appName filename).2) := by
  have h1 : restoreBackup cfg env appName filename =
      (.error .typeErrorReadTypeOfUndefined,
       [.accessFile (joinPath (joinPath cfg.backupDir appName) filename)]) := by
    simp [restoreBackup, hfind, hex, restorePlan, hdb]
  refine ⟨by rw [h1], by rw [h1]; simp, fun c => by rw [h1]; simp⟩

/-- Witness for C10: restoring the fixture application "plain" (no
database descriptor) with the artifact present yields the raw TypeError
after only the access check. -/
theorem restoreBackup_no_database_typeError_witness :
    (restoreBackup cfg1 envAllOk "plain" "f.sql.gz").1 =
      .error .typeErrorReadTypeOfUndefined ∧
    (∀ c, FsAction.execCmd c ∉ (restoreBackup cfg1 envAllOk "plain" "f.sql.gz").2) :=
  ⟨(restoreBackup_no_database_typeError cfg1 envAllOk "plain" "f.sql.gz"
      appPlain rfl rfl rfl).1,
   (restoreBackup_no_database_typeError cfg1 envAllOk "plain" "f.sql.gz"
      appPlain rfl rfl rfl).2.2⟩

/-- C3: `createAllBackups` attempts exactly the applications carrying a
database descriptor: the result has one entry per such application, the
i-th entry is the outcome of that application's own `createBackup` alone
(so one application's failure cannot abort or alter the others), it
reports that application's name, and it is marked successful exactly when
that `createBackup` succeeded; on the fixture roster (appA postgresql,
"plain" without database, appB unsupported redis) the result is appA's
success followed by appB's failure message. -/
theorem createAllBackups_spec (cfg : Config) (env : Env) (ts : String) :
    (createAllBackups cfg env ts).length =
      (cfg.applications.filter (fun a => a.database.isSome)).length ∧
    (∀ (i : ℕ) (app : Application),
      (cfg.applications.filter (fun a => a.database.isSome))[i]? = some app →
        (createAllBackups cfg env ts)[i]? = some (backupAttempt cfg env ts app) ∧
        (backupAttempt cfg env ts app).application = app.name ∧
        ((backupAttempt cfg env ts app).success = true ↔
          ∃ r, (createBackup cfg env app.name ts).1 = .ok r)) ∧
    createAllBackups cfg1 envAllOk "T" =
      [.ok ⟨"appA", "./backups/appA/backup-T.sql.gz", 100⟩,
       .failed "appB" "Unsupported database type: redis"] := by
  refine ⟨by simp [createAllBackups], ?_, by decide⟩
  intro i app h
  refine ⟨by simp [createAllBackups, h], ?_, ?_⟩
  · rcases hr : (createBackup cfg env app.name ts).1 with e | r
    · simp [backupAttempt, hr, AllResult.application]
    · simp only [backupAttempt, hr, AllResult.application]
      exact createBackup_ok_application cfg env app.name ts r hr
  · rcases hr : (createBackup cfg env app.name ts).1 with e | r
    · simp [backupAttempt, hr, AllResult.success]
    · simp [backupAttempt, hr, AllResult.success]

/-- Witness for C3: on the fixture roster the attempted applications are
appA and appB (in roster order); entry 0 is appA's success and entry 1 is
appB's failure. -/
theorem createAllBackups_spec_witness :
    (createAllBackups cfg1 envAllOk "T")[0]? =
      some (.ok ⟨"appA", "./backups/appA/backup-T.sql.gz", 100⟩) ∧
    (createAllBackups cfg1 envAllOk "T")[1]? =
      some (.failed "appB" "Unsupported database type: redis") := by
  have h0 := ((createAllBackups_spec cfg1 envAllOk "T").2.1 0 appA (by decide)).1
  have h1 := ((createAllBackups_spec cfg1 envAllOk "T").2.1 1 appB (by decide)).1
  rw [h0, h1]
  exact ⟨rfl, rfl⟩

/-- Specification-side description of which job `init()` produces for one
application: a job exactly when the application carries a database
descriptor with a present (nonempty) cadence expression that validates,
and that job uses the application's own cadence. -/
def initJob (validate : String → Bool) (a : Application) : Option Job :=
  match a.database with
  | some db =>
    match db.backupSchedule with
    | some s => if (s != "") && validate s then some ⟨a.name, "backup", s⟩ else none
    | none => none
  | none => none

/-- One `init` loop iteration appends exactly the job `initJob`
describes. -/
theorem schedulerInitStep_eq (cfg : Config) (validate : String → Bool)
    (acc : List Job) (a : Application) :
    schedulerInitStep cfg validate acc a = acc ++ (initJob validate a).toList := by
  rcases hdb : a.database with _ | db
  · simp [schedulerInitStep, initJob, hdb]
  · rcases hs : db.backupSchedule with _ | s
    · simp [schedulerInitStep, initJob, hdb, hs, jsTruthyStr]
    · by_cases he : s = ""
      · simp [schedulerInitStep, initJob, hdb, hs, jsTruthyStr, he]
      · by_cases hv : validate s = true
        · simp [schedulerInitStep, initJob, hdb, hs, jsTruthyStr, he, hv,
            scheduleBackup, jsOrStr]
        · simp [schedulerInitStep, initJob, hdb, hs, jsTruthyStr, he, hv,
            scheduleBackup, jsOrStr]

/-- Folding the `init` loop from any accumulator appends the jobs of the
processed roster segment. -/
theorem schedulerInit_foldl_append (cfg : Config) (validate : String → Bool)
    (apps : List Application) (acc : List Job) :
    apps.foldl (schedulerInitStep cfg validate) acc =
      acc ++ apps.filterMap (initJob validate) := by
  induction apps generalizing acc with
  | nil => simp
  | cons a rest ih =>
    rw [List.foldl_cons, schedulerInitStep_eq, ih, List.filterMap_cons]
    rcases initJob validate a with _ | j <;> simp

/-- C4 fixtures: an application whose database descriptor omits the
cadence expression. -/
def dbNoSched : DbConfig := ⟨"postgresql", "c", "d", "u", "p", none, some 7⟩

/-- C4 fixtures: the application carrying `dbNoSched`. -/
def appNoSched : Application := ⟨"nosched", ["x"], some dbNoSched⟩

/-- C4 fixtures: a roster holding only `appNoSched`. -/
def cfgNoSched : Config := ⟨"./backups", "0 2 * * *", 7, [appNoSched]⟩

/-- C4 counterexample: an application carrying a database descriptor that
omits the cadence expression gets no scheduled job at all — `init` never
reaches `scheduleBackup`'s default-cadence fallback — even though every
cadence expression validates; the claim predicted one job with the
process-wide default cadence. -/
theorem schedulerInit_omitted_cadence_no_job :
    appNoSched.database.isSome = true ∧
    appNoSched.database.bind DbConfig.backupSchedule = none ∧
    schedulerInit cfgNoSched (fun _ => true) = [] :=
  ⟨rfl, rfl, rfl⟩

/-- C4 amended: `init()`, run once at startup, creates one scheduled job
for exactly every application whose database descriptor is present and
carries a (nonempty) cadence expression accepted by `cron.validate`, and
that job uses the application's own cadence; an application without a
database descriptor — or whose descriptor omits the cadence expression —
gets no job, the default cadence never being substituted by `init`. -/
theorem schedulerInit_spec (cfg : Config) (validate : String → Bool) :
    schedulerInit cfg validate = cfg.applications.filterMap (initJob validate) := by
  simpa [schedulerInit] using
    schedulerInit_foldl_append cfg validate cfg.applications []

/-- Helper: `find?` returns the first element of the list satisfying the
predicate when everything before it fails the predicate. -/
theorem find?_first_match {α : Type} (p : α → Bool) (l₁ l₂ : List α) (a : α)
    (ha : p a = true) (hprev : ∀ b ∈ l₁, p b = false) :
    (l₁ ++ a :: l₂).find? p = some a := by
  induction l₁ with
  | nil => simp [List.find?_cons_of_pos _ ha]
  | cons b bs ih =>
    rw [List.cons_append, List.find?_cons_of_neg _ (by simp [hprev b (by simp)])]
    exact ih (fun x hx => hprev x (by simp [hx]))

/-- C5 fixtures: two applications with overlapping container-name
fragments ("web" is a substring of "web-extra"). -/
def appOv1 : Application := ⟨"first", ["web"], none⟩

/-- C5 fixtures: the later-declared overlapping application. -/
def appOv2 : Application := ⟨"second", ["web-extra"], none⟩

/-- C5: attribution of a raw container name: after stripping the leading
path decoration, an application matches exactly when some declared
fragment is a substring of the cleaned name or the cleaned name is a
substring of the fragment (symmetric match), or its database container
name is a substring of the cleaned name; the scan returns no application
exactly when no rostered application matches, in which case the resolved
application is "unknown"; and whenever an application matches while
every application declared before it does not, that first matching
application wins. -/
theorem containerAttribution_spec (apps : List Application) (rawName : String) :
    (∀ a : Application, appMatchesContainer (cleanContainerName rawName) a = true ↔
       ((∃ c ∈ a.containers,
           c.data <:+: (cleanContainerName rawName).data ∨
           (cleanContainerName rawName).data <:+: c.data) ∨
        (∃ db, a.database = some db ∧
           db.container.data <:+: (cleanContainerName rawName).data))) ∧
    (findApplicationForContainer apps rawName = none ↔
       ∀ a ∈ apps, appMatchesContainer (cleanContainerName rawName) a = false) ∧
    (findApplicationForContainer apps rawName = none →
       resolveApplication apps rawName = "unknown") ∧
    (∀ (l₁ l₂ : List Application) (a : Application), apps = l₁ ++ a :: l₂ →
       appMatchesContainer (cleanContainerName rawName) a = true →
       (∀ b ∈ l₁, appMatchesContainer (cleanContainerName rawName) b = false) →
       findApplicationForContainer apps rawName = some a.name) := by
  refine ⟨?_, ?_, ?_, ?_⟩
  · intro a
    rcases hdb : a.database with _ | db <;>
      simp [appMatchesContainer, jsIncludes, hdb, List.any_eq_true]
  · simp [findApplicationForContainer, List.find?_eq_none]
  · intro h
    simp [resolveApplication, h]
  · intro l₁ l₂ a hsplit ha hprev
    subst hsplit
    simp [findApplicationForContainer,
      find?_first_match (appMatchesContainer (cleanContainerName rawName)) l₁ l₂ a ha hprev]

/-- Witness for C5: with overlapping fragments the first-declared
application wins; a name matching nothing resolves to "unknown". -/
theorem containerAttribution_spec_witness :
    findApplicationForContainer [appOv1, appOv2] "/web-extra-1" = some "first" ∧
    resolveApplication cfg1.applications "/zzz" = "unknown" := by
  constructor
  · exact (containerAttribution_spec [appOv1, appOv2] "/web-extra-1").2.2.2
      [] [appOv2] appOv1 rfl (by decide) (by simp)
  · exact (containerAttribution_spec cfg1.applications "/zzz").2.2.1 (by decide)

/-- Helper: a string whose character data decomposes as
`pre ++ x ++ post` contains `x` verbatim. -/
theorem data_infix_decomp (x pre post whole : String)
    (h : whole.data = pre.data ++ (x.data ++ post.data)) :
    x.data <:+: whole.data :=
  ⟨pre.data, post.data, by rw [h]; exact List.append_assoc ..⟩

/-- C6 part: the postgresql backup command carries the dump tool name,
the container, the database and the username verbatim. -/
theorem pgBackupCommand_parts (db : DbConfig) (f : String) :
    "pg_dump".data <:+: (getPostgreSQLBackupCommand db f).data ∧
    db.container.data <:+: (getPostgreSQLBackupCommand db f).data ∧
    db.database.data <:+: (getPostgreSQLBackupCommand db f).data ∧
    db.username.data <:+: (getPostgreSQLBackupCommand db f).data := by
  refine ⟨List.IsInfix.trans (by decide)
    (data_infix_decomp " pg_dump -U " ("docker exec " ++ db.container)
      (db.username ++ " " ++ db.database ++ " | gzip > " ++ f) _ ?_), ?_, ?_, ?_⟩
  · simp [getPostgreSQLBackupCommand, String.data_append, List.append_assoc]
  · exact data_infix_decomp db.container "docker exec "
      (" pg_dump -U " ++ db.username ++ " " ++ db.database ++ " | gzip > " ++ f) _
      (by simp [getPostgreSQLBackupCommand, String.data_append, List.append_assoc])
  · exact data_infix_decomp db.database
      ("docker exec " ++ db.container ++ " pg_dump -U " ++ db.username ++ " ")
      (" | gzip > " ++ f) _
      (by simp [getPostgreSQLBackupCommand, String.data_append, List.append_assoc])
  · exact data_infix_decomp db.username
      ("docker exec " ++ db.container ++ " pg_dump -U ")
      (" " ++ db.database ++ " | gzip > " ++ f) _
      (by simp [getPostgreSQLBackupCommand, String.data_append, List.append_assoc])

/-- C6 part: the mysql backup command carries the dump tool name, the
container and the database verbatim. -/
theorem mysqlBackupCommand_parts (db : DbConfig) (f : String) :
    "mysqldump".data <:+: (getMySQLBackupCommand db f).data ∧
    db.container.data <:+: (getMySQLBackupCommand db f).data ∧
    db.database.data <:+: (getMySQLBackupCommand db f).data := by
  refine ⟨List.IsInfix.trans (by decide)
    (data_infix_decomp " mysqldump -u " ("docker exec " ++ db.container)
      (db.username ++ " -p" ++ db.password ++ " " ++ db.database ++ " | gzip > " ++ f)
      _ ?_), ?_, ?_⟩
  · simp [getMySQLBackupCommand, String.data_append, List.append_assoc]
  · exact data_infix_decomp db.container "docker exec "
      (" mysqldump -u " ++ db.username ++ " -p" ++ db.password ++ " " ++ db.database ++
        " | gzip > " ++ f) _
      (by simp [getMySQLBackupCommand, String.data_append, List.append_assoc])
  · exact data_infix_decomp db.database
      ("docker exec " ++ db.container ++ " mysqldump -u " ++ db.username ++ " -p" ++
        db.password ++ " ")
      (" | gzip > " ++ f) _
      (by simp [getMySQLBackupCommand, String.data_append, List.append_assoc])

/-- C6 part: the mongodb backup command carries the dump tool name, the
container and the database verbatim. -/
theorem mongoBackupCommand_parts (db : DbConfig) (f : String) :
    "mongodump".data <:+: (getMongoDBBackupCommand db f).data ∧
    db.container.data <:+: (getMongoDBBackupCommand db f).data ∧
    db.database.data <:+: (getMongoDBBackupCommand db f).data := by
  refine ⟨List.IsInfix.trans (by decide)
    (data_infix_decomp " mongodump --db " ("docker exec " ++ db.container)
      (db.database ++ " --archive | gzip > " ++ f) _ ?_), ?_, ?_⟩
  · simp [getMongoDBBackupCommand, String.data_append, List.append_assoc]
  · exact data_infix_decomp db.container "docker exec "
      (" mongodump --db " ++ db.database ++ " --archive | gzip > " ++ f) _
      (by simp [getMongoDBBackupCommand, String.data_append, List.append_assoc])
  · exact data_infix_decomp db.database
      ("docker exec " ++ db.container ++ " mongodump --db ")
      (" --archive | gzip > " ++ f) _
      (by simp [getMongoDBBackupCommand, String.data_append, List.append_assoc])

/-- C6 part: the postgresql restore command carries the restore tool
name, the container, the database and the username verbatim. -/
theorem pgRestoreCommand_parts (db : DbConfig) (f : String) :
    "psql".data <:+: (getPostgreSQLRestoreCommand db f).data ∧
    db.container.data <:+: (getPostgreSQLRestoreCommand db f).data ∧
    db.database.data <:+: (getPostgreSQLRestoreCommand db f).data ∧
    db.username.data <:+: (getPostgreSQLRestoreCommand db f).data := by
  refine ⟨List.IsInfix.trans (by decide)
    (data_infix_decomp " psql -U " ("gunzip < " ++ f ++ " | docker exec -i " ++ db.container)
      (db.username ++ " " ++ db.database) _ ?_), ?_, ?_, ?_⟩
  · simp [getPostgreSQLRestoreCommand, String.data_append, List.append_assoc]
  · exact data_infix_decomp db.container ("gunzip < " ++ f ++ " | docker exec -i ")
      (" psql -U " ++ db.username ++ " " ++ db.database) _
      (by simp [getPostgreSQLRestoreCommand, String.data_append, List.append_assoc])
  · exact data_infix_decomp db.database
      ("gunzip < " ++ f ++ " | docker exec -i " ++ db.container ++ " psql -U " ++
        db.username ++ " ") "" _
      (by simp [getPostgreSQLRestoreCommand, String.data_append, List.append_assoc])
  · exact data_infix_decomp db.username
      ("gunzip < " ++ f ++ " | docker exec -i " ++ db.container ++ " psql -U ")
      (" " ++ db.database) _
      (by simp [getPostgreSQLRestoreCommand, String.data_append, List.append_assoc])

/-- C6 part: the mysql restore command carries the restore tool name, the
container and the database verbatim. -/
theorem mysqlRestoreCommand_parts (db : DbConfig) (f : String) :
    "mysql".data <:+: (getMySQLRestoreCommand db f).data ∧
    db.container.data <:+: (getMySQLRestoreCommand db f).data ∧
    db.database.data <:+: (getMySQLRestoreCommand db f).data := by
  refine ⟨List.IsInfix.trans (by decide)
    (data_infix_decomp " mysql -u " ("gunzip < " ++ f ++ " | docker exec -i " ++ db.container)
      (db.username ++ " -p" ++ db.password ++ " " ++ db.database) _ ?_), ?_, ?_⟩
  · simp [getMySQLRestoreCommand, String.data_append, List.append_assoc]
  · exact data_infix_decomp db.container ("gunzip < " ++ f ++ " | docker exec -i ")
      (" mysql -u " ++ db.username ++ " -p" ++ db.password ++ " " ++ db.database) _
      (by simp [getMySQLRestoreCommand, String.data_append, List.append_assoc])
  · exact data_infix_decomp db.database
      ("gunzip < " ++ f ++ " | docker exec -i " ++ db.container ++ " mysql -u " ++
        db.username ++ " -p" ++ db.password ++ " ") "" _
      (by simp [getMySQLRestoreCommand, String.data_append, List.append_assoc])

/-- C6 part: the mongodb restore command carries the restore tool name,
the container and the database verbatim. -/
theorem mongoRestoreCommand_parts (db : DbConfig) (f : String) :
    "mongorestore".data <:+: (getMongoDBRestoreCommand db f).data ∧
    db.container.data <:+: (getMongoDBRestoreCommand db f).data ∧
    db.database.data <:+: (getMongoDBRestoreCommand db f).data := by
  refine ⟨List.IsInfix.trans (by decide)
    (data_infix_decomp " mongorestore --archive --db "
      ("gunzip < " ++ f ++ " | docker exec -i " ++ db.container) db.database _ ?_), ?_, ?_⟩
  · simp [getMongoDBRestoreCommand, String.data_append, List.append_assoc]
  · exact data_infix_decomp db.container ("gunzip < " ++ f ++ " | docker exec -i ")
      (" mongorestore --archive --db " ++ db.database) _
      (by simp [getMongoDBRestoreCommand, String.data_append, List.append_assoc])
  · exact data_infix_decomp db.database
      ("gunzip < " ++ f ++ " | docker exec -i " ++ db.container ++
        " mongorestore --archive --db ") "" _
      (by simp [getMongoDBRestoreCommand, String.data_append, List.append_assoc])

/-- C6: for every supported engine kind the built backup and restore
commands contain the engine's dump/restore tool name, the configured
container name and the configured database name verbatim; the postgresql
commands carry the username while being entirely independent of the
password (no password flag); and an application whose engine kind is none
of postgresql/mysql/mongodb makes `createBackup` fail with the
UnsupportedEngineKind error with no command ever executed. -/
theorem commandBuilder_spec :
    (∀ (db : DbConfig) (f : String),
       "pg_dump".data <:+: (getPostgreSQLBackupCommand db f).data ∧
       db.container.data <:+: (getPostgreSQLBackupCommand db f).data ∧
       db.database.data <:+: (getPostgreSQLBackupCommand db f).data ∧
       db.username.data <:+: (getPostgreSQLBackupCommand db f).data ∧
       ∀ p, getPostgreSQLBackupCommand { db with password := p } f =
         getPostgreSQLBackupCommand db f) ∧
    (∀ (db : DbConfig) (f : String),
       "mysqldump".data <:+: (getMySQLBackupCommand db f).data ∧
       db.container.data <:+: (getMySQLBackupCommand db f).data ∧
       db.database.data <:+: (getMySQLBackupCommand db f).data) ∧
    (∀ (db : DbConfig) (f : String),
       "mongodump".data <:+: (getMongoDBBackupCommand db f).data ∧
       db.container.data <:+: (getMongoDBBackupCommand db f).data ∧
       db.database.data <:+: (getMongoDBBackupCommand db f).data) ∧
    (∀ (db : DbConfig) (f : String),
       "psql".data <:+: (getPostgreSQLRestoreCommand db f).data ∧
       db.container.data <:+: (getPostgreSQLRestoreCommand db f).data ∧
       db.database.data <:+: (getPostgreSQLRestoreCommand db f).data ∧
       db.username.data <:+: (getPostgreSQLRestoreCommand db f).data ∧
       ∀ p, getPostgreSQLRestoreCommand { db with password := p } f =
         getPostgreSQLRestoreCommand db f) ∧
    (∀ (db : DbConfig) (f : String),
       "mysql".data <:+: (getMySQLRestoreCommand db f).data ∧
       db.container.data <:+: (getMySQLRestoreCommand db f).data ∧
       db.database.data <:+: (getMySQLRestoreCommand db f).data) ∧
    (∀ (db : DbConfig) (f : String),
       "mongorestore".data <:+: (getMongoDBRestoreCommand db f).data ∧
       db.container.data <:+: (getMongoDBRestoreCommand db f).data ∧
       db.database.data <:+: (getMongoDBRestoreCommand db f).data) ∧
    (∀ (cfg : Config) (env : Env) (appName ts : String) (app : Application)
       (db : DbConfig),
       cfg.applications.find? (fun a => a.name == appName) = some app →
       app.database = some db →
       jsToLowerCase db.type ≠ "postgresql" →
       jsToLowerCase db.type ≠ "mysql" →
       jsToLowerCase db.type ≠ "mongodb" →
       (createBackup cfg env appName ts).1 =
         .error (.unsupportedDatabaseType db.type) ∧
       ∀ c, FsAction.execCmd c ∉ (createBackup cfg env appName ts).2) := by
  refine ⟨?_, mysqlBackupCommand_parts, mongoBackupCommand_parts, ?_,
    mysqlRestoreCommand_parts, mongoRestoreCommand_parts, ?_⟩
  · intro db f
    exact ⟨(pgBackupCommand_parts db f).1, (pgBackupCommand_parts db f).2.1,
      (pgBackupCommand_parts db f).2.2.1, (pgBackupCommand_parts db f).2.2.2,
      fun p => rfl⟩
  · intro db f
    exact ⟨(pgRestoreCommand_parts db f).1, (pgRestoreCommand_parts db f).2.1,
      (pgRestoreCommand_parts db f).2.2.1, (pgRestoreCommand_parts db f).2.2.2,
      fun p => rfl⟩
  · intro cfg env appName ts app db hfind hdb h1 h2 h3
    have hplan : backupPlan db (joinPath cfg.backupDir appName) ts =
        .error (.unsupportedDatabaseType db.type) := by
      simp [backupPlan, h1, h2, h3]
    have hrun : createBackup cfg env appName ts =
        (.error (.unsupportedDatabaseType db.type),
         [.mkdir (joinPath cfg.backupDir appName)]) := by
      simp [createBackup, hfind, hdb, hplan]
    exact ⟨by rw [hrun], fun c => by rw [hrun]; simp⟩

/-- Witness for C6: concrete commands for the fixture postgresql
descriptor, and the fixture roster's redis application failing with
UnsupportedEngineKind and an execution-free trace. -/
theorem commandBuilder_spec_witness :
    "pg_dump".data <:+: (getPostgreSQLBackupCommand pgDb "/tmp/f.sql.gz").data ∧
    (createBackup cfg1 envAllOk "appB" "T").1 =
      .error (.unsupportedDatabaseType "redis") ∧
    (∀ c, FsAction.execCmd c ∉ (createBackup cfg1 envAllOk "appB" "T").2) := by
  have h := (commandBuilder_spec.2.2.2.2.2.2 cfg1 envAllOk "appB" "T" appB redisDb
    rfl rfl (by decide) (by decide) (by decide))
  exact ⟨(commandBuilder_spec.1 pgDb "/tmp/f.sql.gz").1, h.1, h.2⟩
